import Mathlib

/-!
# Verification of the ip-geo provider-adapter and validation layer

This development gives a shallow embedding, in Lean 4, of the core logic of the
ip-geo microservice: the two provider adapters (`IpApiCo` for ipapi.co and
`IpApiCom` for ip-api.com), their HTTP-status and provider-error classification,
payload normalization, the latitude/longitude coercion validator, the
request-level `ip` validator, and the outward error mapping.

Python strings are modelled as Lean `String`, JSON values as the inductive
`JVal`, Python numbers (ints and floats) as `ℚ`, and raised exceptions as
`Except`/`Option` results.  Helper functions named `py...` model the Python
built-ins the source uses (`str.lower`, `str.strip`, the `in` substring test,
truthiness, `or`-chaining, `float`, `round`).
-/

/-- Python `str.lower()` restricted to ASCII case mapping (all strings the
classifiers compare against are ASCII). -/
def pyLower (s : String) : String := ⟨s.toList.map Char.toLower⟩

/-- Characters Python's `str.strip()` removes (the ASCII whitespace subset). -/
def pyIsSpace (c : Char) : Bool := c = ' ' ∨ c = '\t' ∨ c = '\n' ∨ c = '\r' ∨ c = '\x0b' ∨ c = '\x0c'

/-- Python `str.strip()` on a character list: drop whitespace from both ends. -/
def pyStripList (l : List Char) : List Char :=
  ((l.dropWhile pyIsSpace).reverse.dropWhile pyIsSpace).reverse

/-- Python `str.strip()`. -/
def pyStrip (s : String) : String := ⟨pyStripList s.toList⟩

/-- Boolean substring containment of `needle` in `hay`, modelling Python's
`needle in hay` on strings. -/
def containsSeq (needle : List Char) : List Char → Bool
  | [] => needle.isEmpty
  | c :: rest => needle.isPrefixOf (c :: rest) || containsSeq needle rest

/-- Python `needle in hay` for strings. -/
def pyIn (needle hay : String) : Bool := containsSeq needle.toList hay.toList

/-- Python `str.split(sep)` for a single-character separator, on char lists.
The result is always non-empty. -/
def splitOnChar (sep : Char) : List Char → List (List Char)
  | [] => [[]]
  | c :: rest =>
    match splitOnChar sep rest with
    | [] => [[]]
    | h :: t => if c = sep then [] :: h :: t else (c :: h) :: t

/-- Joining with a single-character separator; inverse of `splitOnChar`. -/
def joinSep (sep : Char) : List (List Char) → List Char
  | [] => []
  | [p] => p
  | p :: ps => p ++ sep :: joinSep sep ps

theorem splitOnChar_ne_nil (sep : Char) (l : List Char) : splitOnChar sep l ≠ [] := by
  cases l with
  | nil => simp [splitOnChar]
  | cons c rest =>
    simp only [splitOnChar]
    cases h : splitOnChar sep rest with
    | nil => simp
    | cons h t =>
      by_cases hc : c = sep <;> simp [hc]

theorem joinSep_splitOnChar (sep : Char) (l : List Char) :
    joinSep sep (splitOnChar sep l) = l := by
  induction l with
  | nil => simp [splitOnChar, joinSep]
  | cons c rest ih =>
    simp only [splitOnChar]
    cases h : splitOnChar sep rest with
    | nil => exact absurd h (splitOnChar_ne_nil sep rest)
    | cons p ps =>
      rw [h] at ih
      by_cases hc : c = sep
      · subst hc
        simp only [if_pos rfl]
        cases ps with
        | nil => simp_all [joinSep]
        | cons q qs => simp_all [joinSep]
      · simp only [if_neg hc]
        cases ps with
        | nil => simp_all [joinSep]
        | cons q qs => simp_all [joinSep]

/-- A JSON value as decoded by Python's `json` module: `None`, `bool`, a
number (ints and floats both modelled as `ℚ`), `str`, list or dict. -/
inductive JVal where
  | null : JVal
  | bool : Bool → JVal
  | num : ℚ → JVal
  | str : String → JVal
  | arr : List JVal → JVal
  | obj : List (String × JVal) → JVal

/-- A decoded JSON object (Python dict with string keys). -/
def JObj := List (String × JVal)

/-- Python truthiness of a decoded JSON value: `None`, `False`, `0`, `""`,
`[]` and `{}` are falsy, everything else truthy. -/
def pyTruthy : JVal → Bool
  | JVal.null => false
  | JVal.bool b => b
  | JVal.num q => q ≠ 0
  | JVal.str s => s ≠ ""
  | JVal.arr l => ¬ l.isEmpty
  | JVal.obj l => ¬ l.isEmpty

/-- Python `a or b`: `a` if truthy, else `b`. -/
def pyOr (a b : JVal) : JVal := if pyTruthy a then a else b

/-- Python `dict.get(key)`: the first binding for `key`, or `None`. -/
def jget (d : JObj) (key : String) : JVal :=
  match List.lookup key d with
  | some v => v
  | none => JVal.null

/-- Python `str()` of a decoded JSON value.  The rendering of numbers is a
simplified stand-in for CPython float/int `repr` (no claim depends on it);
strings, booleans and `None` are rendered exactly. -/
def pyStr : JVal → String
  | JVal.null => "None"
  | JVal.bool b => if b then "True" else "False"
  | JVal.num q => toString q.num ++ (if q.den = 1 then "" else "/" ++ toString q.den)
  | JVal.str s => s
  | JVal.arr _ => "[...]"
  | JVal.obj _ => "{...}"

/-- Python `value is True`: true exactly for the boolean `True`. -/
def isTrueBool : JVal → Bool
  | JVal.bool true => true
  | _ => false

/-- Intake of a JSON value into a pydantic `str | None` field: `None` stays
absent, a string is kept.  Non-string, non-null values (which pydantic v2
would reject) are modelled as absent; no claim exercises that path. -/
def asOptStr : JVal → Option String
  | JVal.null => none
  | JVal.str s => some s
  | _ => none

/-! ## Python numbers: `float()` parsing and `round(x, 6)`

Python floats are modelled as exact rationals.  `pyFloatOfString` models the
accepting grammar of `float(str)` on finite decimal literals: optional
surrounding whitespace, an optional sign, a mantissa that is `digits`,
`digits.digits`, `digits.` or `.digits`, and an optional exponent part.
(`inf`/`nan` spellings and digit-group underscores are not modelled; no claim
depends on them.)  `pyRound6` models `round(x, 6)`, Python's round-half-even
rounding to six decimal places. -/

/-- Numeric value of a list of decimal digit characters. -/
def digitsVal (l : List Char) : Nat :=
  l.foldl (fun acc c => 10 * acc + (c.toNat - '0'.toNat)) 0

/-- Parse the exponent suffix of a float literal (after `e`/`E`): an optional
sign followed by at least one digit, consuming the whole rest. -/
def parseExpTail (l : List Char) : Option Int :=
  let (sgn, l1) : Int × List Char :=
    match l with
    | '+' :: t => (1, t)
    | '-' :: t => (-1, t)
    | _ => (1, l)
  let ds := l1.takeWhile Char.isDigit
  let rest := l1.dropWhile Char.isDigit
  if ds.isEmpty ∨ ¬ rest.isEmpty then none
  else some (sgn * (digitsVal ds : Int))

/-- The value of Python `float(s)` for a finite decimal literal, or `none`
when `float` would raise `ValueError`. -/
def pyFloatOfString (s : String) : Option ℚ :=
  let l := pyStripList s.toList
  let (sgn, l1) : ℚ × List Char :=
    match l with
    | '+' :: t => (1, t)
    | '-' :: t => (-1, t)
    | _ => (1, l)
  let ip := l1.takeWhile Char.isDigit
  let l2 := l1.dropWhile Char.isDigit
  let (fp, l3, hasPoint) : List Char × List Char × Bool :=
    match l2 with
    | '.' :: t => (t.takeWhile Char.isDigit, t.dropWhile Char.isDigit, true)
    | _ => ([], l2, false)
  if ip.isEmpty ∧ (¬ hasPoint ∨ fp.isEmpty) then none
  else
    let mant : ℚ := sgn * ((digitsVal ip : ℚ) + (digitsVal fp : ℚ) / (10 : ℚ) ^ fp.length)
    match l3 with
    | [] => some mant
    | 'e' :: t =>
      match parseExpTail t with
      | some e => some (mant * (10 : ℚ) ^ e)
      | none => none
    | 'E' :: t =>
      match parseExpTail t with
      | some e => some (mant * (10 : ℚ) ^ e)
      | none => none
    | _ => none

/-- Round-half-even to the nearest integer, as Python's `round` does (ties
go to the even neighbour). -/
def roundHalfEven (x : ℚ) : ℤ :=
  let f := Rat.floor x
  let frac := x - (f : ℚ)
  if frac < 1 / 2 then f
  else if frac > 1 / 2 then f + 1
  else if f % 2 = 0 then f else f + 1

/-- Python `round(x, 6)`. -/
def pyRound6 (x : ℚ) : ℚ := ((roundHalfEven (x * 1000000) : ℚ)) / 1000000

/-- Python `float(value)` applied to a decoded JSON value: numbers pass
through, booleans become `1.0`/`0.0`, numeric-looking strings are parsed,
everything else raises (`TypeError`/`ValueError`), modelled as `none`. -/
def pyFloat : JVal → Option ℚ
  | JVal.null => none
  | JVal.bool b => some (if b then 1 else 0)
  | JVal.num q => some q
  | JVal.str s => pyFloatOfString s
  | JVal.arr _ => none
  | JVal.obj _ => none

/-- Embedding of `IPGeolocationData._coerce_lat_lon` (src/models/common.py): the pydantic
before-validator for `latitude`/`longitude`.  `None` stays absent; otherwise
`round(float(value), 6)` is attempted, and any `TypeError`/`ValueError` is
swallowed into absence. -/
def coerce_lat_lon (value : JVal) : Option ℚ :=
  match value with
  | JVal.null => none
  | v =>
    match pyFloat v with
    | some q => some (pyRound6 q)
    | none => none

theorem ratFloor_intCast (n : ℤ) : Rat.floor (n : ℚ) = n := by
  simp [Rat.floor]

theorem roundHalfEven_intCast (n : ℤ) : roundHalfEven (n : ℚ) = n := by
  simp [roundHalfEven, ratFloor_intCast]

theorem pyRound6_idem (q : ℚ) : pyRound6 (pyRound6 q) = pyRound6 q := by
  unfold pyRound6
  have h : ((roundHalfEven (q * 1000000) : ℚ)) / 1000000 * 1000000
      = ((roundHalfEven (q * 1000000) : ℚ)) := by
    field_simp
  rw [h, roundHalfEven_intCast]

theorem pyRound6_den (q : ℚ) : (pyRound6 q * 1000000).den = 1 := by
  unfold pyRound6
  have h : ((roundHalfEven (q * 1000000) : ℚ)) / 1000000 * 1000000
      = ((roundHalfEven (q * 1000000) : ℚ)) := by
    field_simp
  rw [h, Rat.den_intCast]

/-! ## Error taxonomy and normalized record (src/errors.py, src/models/common.py) -/

/-- The typed provider failures of `src/errors.py`, each carrying the message
it was raised with. -/
inductive DomainError where
  | invalidIp : String → DomainError
  | reservedIp : String → DomainError
  | ipNotFound : String → DomainError
  | upstream : String → DomainError
deriving DecidableEq, Repr

/-- Embedding of `IPGeolocationData` (src/models/common.py): the normalized geolocation
record.  Latitude/longitude are stored after `coerce_lat_lon`. -/
structure IPGeolocationData where
  ip : String
  country : String
  country_name : String
  region : Option String := none
  city : Option String := none
  postal_code : Option String := none
  latitude : Option ℚ := none
  longitude : Option ℚ := none
  timezone : Option String := none
  isp : Option String := none
deriving DecidableEq, Repr

/-- An upstream HTTP response as the adapters see it: the status code, the
raw body text (`response.text`), and the result of `response.json()` —
`some` dict when the body decodes as a JSON object, `none` when decoding
raises `ValueError`. -/
structure HttpResponse where
  status : Nat
  text : String
  json : Option JObj

/-! ## Provider A: `IpApiCo` (src/clients/ip_api_co_client.py) -/

/-- Embedding of `IpApiCo._handle_http_errors`: map provider HTTP status codes to domain
errors; `none` means "fall through to body parsing". -/
def IpApiCo.handle_http_errors (r : HttpResponse) : Option DomainError :=
  if r.status = 400 then
    some (DomainError.upstream ("IP provider returned HTTP 400 Bad Request: " ++ r.text))
  else if r.status = 403 then
    some (DomainError.upstream "Authentication with IP provider failed (HTTP 403).")
  else if r.status = 405 then
    some (DomainError.upstream "HTTP method not allowed when calling IP provider (HTTP 405).")
  else if r.status = 429 then
    some (DomainError.upstream "IP provider rate limit or quota exceeded (HTTP 429).")
  else if r.status ≥ 500 then
    some (DomainError.upstream ("IP provider returned HTTP " ++ toString r.status ++ ": " ++ r.text))
  else if r.status = 404 then
    some (DomainError.ipNotFound "No geolocation information found for this IP address.")
  else none

/-- The `reason` string `IpApiCo._handle_provider_error` extracts:
`str(data.get("reason") or data.get("message") or "Unknown error from ipapi.co")`. -/
def IpApiCo.reasonOf (data : JObj) : String :=
  pyStr (pyOr (jget data "reason") (pyOr (jget data "message") (JVal.str "Unknown error from ipapi.co")))

/-- Embedding of `IpApiCo._handle_provider_error`: classify an embedded provider error
payload; `none` means the body carries no error flag and is a success. -/
def IpApiCo.handle_provider_error (data : JObj) : Option DomainError :=
  if ¬ pyTruthy (jget data "error") then none
  else
    let reason := IpApiCo.reasonOf data
    let lower_reason := pyLower reason
    if pyIn "invalid ip address" lower_reason ∨ pyIn "invalid" lower_reason then
      some (DomainError.invalidIp reason)
    else if pyIn "reserved ip address" lower_reason ∨ pyIn "reserved" lower_reason
        ∨ isTrueBool (jget data "reserved") then
      some (DomainError.reservedIp reason)
    else if pyIn "ratelimited" lower_reason ∨ pyIn "quota" lower_reason then
      some (DomainError.upstream ("IP provider rate limit or quota exceeded: " ++ reason))
    else
      some (DomainError.upstream reason)

/-- Embedding of `IpApiCo._normalize_payload`: map the ipapi.co response dict into the
normalized record. -/
def IpApiCo.normalize_payload (data : JObj) : IPGeolocationData :=
  { ip := pyStr (pyOr (jget data "ip") (JVal.str ""))
    country := pyStr (pyOr (jget data "country") (JVal.str ""))
    country_name := pyStr (pyOr (jget data "country_name") (JVal.str ""))
    region := asOptStr (jget data "region")
    city := asOptStr (jget data "city")
    postal_code := asOptStr (jget data "postal")
    latitude := coerce_lat_lon (jget data "latitude")
    longitude := coerce_lat_lon (jget data "longitude")
    timezone := asOptStr (jget data "timezone")
    isp := asOptStr (jget data "org") }

/-- Embedding of `IpApiCo._parse_json`: the decoded dict, or `UpstreamServiceError` when
the body is not valid JSON. -/
def IpApiCo.parse_json (r : HttpResponse) : Except DomainError JObj :=
  match r.json with
  | some d => Except.ok d
  | none => Except.error (DomainError.upstream "Failed to decode IP provider response as JSON")

/-- Embedding of `IpApiCo._request` from the point the HTTP response is available: HTTP
status interpretation, then JSON decoding, then embedded-error
classification, then normalization.  (The transport-failure branch —
`httpx.RequestError` → `UpstreamServiceError` — sits upstream of this
function and is not claim-relevant.) -/
def IpApiCo.request (r : HttpResponse) : Except DomainError IPGeolocationData :=
  match IpApiCo.handle_http_errors r with
  | some e => Except.error e
  | none =>
    match IpApiCo.parse_json r with
    | Except.error e => Except.error e
    | Except.ok data =>
      match IpApiCo.handle_provider_error data with
      | some e => Except.error e
      | none => Except.ok (IpApiCo.normalize_payload data)

/-! ## Provider B: `IpApiCom` (src/clients/ip_api_com_client.py) -/

/-- Embedding of `IpApiCom._handle_http_errors`. -/
def IpApiCom.handle_http_errors (r : HttpResponse) : Option DomainError :=
  if r.status = 404 then
    some (DomainError.ipNotFound "No geolocation information found for this IP address.")
  else if r.status = 429 then
    some (DomainError.upstream "IP provider rate limit or quota exceeded (HTTP 429).")
  else if 400 ≤ r.status ∧ r.status < 500 then
    some (DomainError.upstream ("IP provider returned HTTP " ++ toString r.status ++ ": " ++ r.text))
  else if r.status ≥ 500 then
    some (DomainError.upstream ("IP provider returned HTTP " ++ toString r.status ++ ": " ++ r.text))
  else none

/-- The lower-cased status string `IpApiCom._handle_provider_status`
computes: `str(data.get("status") or "").lower()`. -/
def IpApiCom.statusValue (data : JObj) : String :=
  pyLower (pyStr (pyOr (jget data "status") (JVal.str "")))

/-- The `message` string `IpApiCom._handle_provider_status` extracts on the
non-success path. -/
def IpApiCom.messageOf (data : JObj) : String :=
  pyStr (pyOr (jget data "message") (JVal.str "Unknown error from ip-api.com"))

/-- Embedding of `IpApiCom._handle_provider_status`: classify the `status`/`message`
convention; `none` means success. -/
def IpApiCom.handle_provider_status (data : JObj) : Option DomainError :=
  if IpApiCom.statusValue data = "success" then none
  else
    let message := IpApiCom.messageOf data
    let lower_msg := pyLower message
    if pyIn "invalid query" lower_msg ∨ pyIn "invalid" lower_msg then
      some (DomainError.invalidIp message)
    else if pyIn "private range" lower_msg ∨ pyIn "reserved range" lower_msg then
      some (DomainError.reservedIp message)
    else if pyIn "quota" lower_msg ∨ pyIn "limit" lower_msg then
      some (DomainError.upstream ("IP provider rate limit or quota exceeded: " ++ message))
    else if pyIn "not found" lower_msg then
      some (DomainError.ipNotFound message)
    else
      some (DomainError.upstream message)

/-- Embedding of `IpApiCom._normalize_payload`. -/
def IpApiCom.normalize_payload (data : JObj) : IPGeolocationData :=
  let region_name := pyOr (jget data "regionName") (pyOr (jget data "region") (JVal.str ""))
  let region := if pyStr region_name = "" then none else some (pyStr region_name)
  let postal := pyStr (pyOr (jget data "zip") (JVal.str ""))
  let postal_code := if postal = "" then none else some postal
  { ip := pyStr (pyOr (jget data "query") (JVal.str ""))
    country := pyStr (pyOr (jget data "countryCode") (JVal.str ""))
    country_name := pyStr (pyOr (jget data "country") (JVal.str ""))
    region := region
    city := asOptStr (jget data "city")
    postal_code := postal_code
    latitude := coerce_lat_lon (jget data "lat")
    longitude := coerce_lat_lon (jget data "lon")
    timezone := asOptStr (jget data "timezone")
    isp := asOptStr (pyOr (jget data "isp") (jget data "org")) }

/-- Embedding of `IpApiCom._parse_json`. -/
def IpApiCom.parse_json (r : HttpResponse) : Except DomainError JObj :=
  match r.json with
  | some d => Except.ok d
  | none => Except.error (DomainError.upstream "Failed to decode IP provider response as JSON")

/-- Embedding of `IpApiCom._request` from the point the HTTP response is available. -/
def IpApiCom.request (r : HttpResponse) : Except DomainError IPGeolocationData :=
  match IpApiCom.handle_http_errors r with
  | some e => Except.error e
  | none =>
    match IpApiCom.parse_json r with
    | Except.error e => Except.error e
    | Except.ok data =>
      match IpApiCom.handle_provider_status data with
      | some e => Except.error e
      | none => Except.ok (IpApiCom.normalize_payload data)

/-! ## The `ipaddress` standard library (as used by `_validate_ip`)

`IPLookupRequest._validate_ip` (src/models/request_models.py, and the
identical copy in src/main.py) calls `ipaddress.ip_address`.  The embedding
below follows CPython's `ipaddress` module: `IPv4Address`/`IPv6Address`
constructors whose failures are `AddressValueError` (modelled as the
`Except String` error case), and `ip_address`, which tries both constructors,
swallows their `AddressValueError`s, and raises a plain `ValueError` when
neither accepts.  RFC 4007 zone-id suffixes (`%zone`) are not modelled. -/

/-- Map a fallible function over a list, stopping at the first failure
(Python's implicit exception propagation through `map`/loops). -/
def mapExcept {α β ε : Type} (f : α → Except ε β) : List α → Except ε (List β)
  | [] => Except.ok []
  | a :: l =>
    match f a with
    | Except.error e => Except.error e
    | Except.ok b =>
      match mapExcept f l with
      | Except.error e => Except.error e
      | Except.ok bs => Except.ok (b :: bs)

/-- A hex digit as accepted by CPython's `_parse_hextet` character check. -/
def pyIsHexDigit (c : Char) : Bool :=
  c.isDigit ∨ ('a' ≤ c ∧ c ≤ 'f') ∨ ('A' ≤ c ∧ c ≤ 'F')

/-- Numeric value of a hex digit character. -/
def hexDigitVal (c : Char) : Nat :=
  if c.isDigit then c.toNat - '0'.toNat
  else if 'a' ≤ c ∧ c ≤ 'f' then c.toNat - 'a'.toNat + 10
  else c.toNat - 'A'.toNat + 10

/-- Numeric value of a list of hex digit characters. -/
def hexVal (l : List Char) : Nat :=
  l.foldl (fun acc c => 16 * acc + hexDigitVal c) 0

/-- CPython `IPv4Address._parse_octet`: a non-empty string of at most three
ASCII digits, without leading zeros, valued at most 255. -/
def parse_octet (p : List Char) : Except String Nat :=
  if p = [] then Except.error "Empty octet not permitted"
  else if ¬ p.all Char.isDigit then Except.error "Only decimal digits permitted"
  else if p.length > 3 then Except.error "At most 3 characters permitted"
  else if p ≠ ['0'] ∧ p.head? = some '0' then Except.error "Leading zeros are not permitted"
  else
    let octet_int := digitsVal p
    if octet_int > 255 then Except.error "Octet (> 255) not permitted"
    else Except.ok octet_int

/-- CPython `IPv4Address.__init__` on a character list: reject empty input
and `/`, split on `.`, expect exactly four octets, and assemble the 32-bit
value.  The error case models a raised `AddressValueError`. -/
def IPv4Address.ctorList (l : List Char) : Except String Nat :=
  if l = [] then Except.error "Address cannot be empty"
  else if l.contains '/' then Except.error "Unexpected '/' in address"
  else
    let octets := splitOnChar '.' l
    if octets.length ≠ 4 then Except.error "Expected 4 octets"
    else
      match mapExcept parse_octet octets with
      | Except.ok vs => Except.ok (vs.foldl (fun acc v => 256 * acc + v) 0)
      | Except.error e => Except.error e

/-- CPython `IPv4Address(addr_str)`. -/
def IPv4Address.ctor (s : String) : Except String Nat :=
  IPv4Address.ctorList s.toList

/-- CPython `IPv6Address._parse_hextet`: only hex digits, at most four of
them, and non-empty (`int("", 16)` raises). -/
def parse_hextet (p : List Char) : Except String Nat :=
  if ¬ p.all pyIsHexDigit then Except.error "Only hex digits permitted"
  else if p.length > 4 then Except.error "At most 4 characters permitted"
  else if p = [] then Except.error "invalid literal for int() with base 16"
  else Except.ok (hexVal p)

/-- The body of CPython `IPv6Address._ip_int_from_string` after the
minimum-parts check and the IPv4-suffix conversion: locate the at most one
`::`, check the leading/trailing-colon and part-count constraints, and parse
the hextets on both sides of the gap into a 128-bit value. -/
def IPv6Address.ctorCore (parts : List (List Char)) : Except String Nat :=
  let N := parts.length
  if N > 9 then Except.error "At most 8 colons permitted"
  else
    match (List.range (N - 2)).filter (fun i => parts.get? (i + 1) = some ([] : List Char)) with
    | _ :: _ :: _ => Except.error "At most one '::' permitted"
    | [skipm1] =>
      let skip_index := skipm1 + 1
      let parts_hi0 := skip_index
      let parts_lo0 := N - skip_index - 1
      let firstEmpty := parts.head? = some ([] : List Char)
      let lastEmpty := parts.getLast? = some ([] : List Char)
      let parts_hi := if firstEmpty then parts_hi0 - 1 else parts_hi0
      if firstEmpty ∧ parts_hi ≠ 0 then
        Except.error "Leading ':' only permitted as part of '::'"
      else
        let parts_lo := if lastEmpty then parts_lo0 - 1 else parts_lo0
        if lastEmpty ∧ parts_lo ≠ 0 then
          Except.error "Trailing ':' only permitted as part of '::'"
        else
          let parts_skipped : Int := 8 - (parts_hi : Int) - (parts_lo : Int)
          if parts_skipped < 1 then Except.error "Expected at most 7 other parts with '::'"
          else
            match mapExcept parse_hextet (parts.take parts_hi),
                  mapExcept parse_hextet (parts.drop (N - parts_lo)) with
            | Except.ok his, Except.ok los =>
              let hiVal := his.foldl (fun acc v => 65536 * acc + v) 0
              let loVal := los.foldl (fun acc v => 65536 * acc + v) 0
              Except.ok (hiVal * 65536 ^ (parts_skipped.toNat + los.length) + loVal)
            | Except.error e, _ => Except.error e
            | _, Except.error e => Except.error e
    | [] =>
      if N ≠ 8 then Except.error "Exactly 8 parts expected without '::'"
      else if parts.head? = some ([] : List Char) then
        Except.error "Leading ':' only permitted as part of '::'"
      else if parts.getLast? = some ([] : List Char) then
        Except.error "Trailing ':' only permitted as part of '::'"
      else
        match mapExcept parse_hextet parts with
        | Except.ok vs => Except.ok (vs.foldl (fun acc v => 65536 * acc + v) 0)
        | Except.error e => Except.error e

/-- CPython `IPv6Address.__init__` on a character list: reject empty input
and `/`, split on `:`, require at least three parts, convert an IPv4-style
last part into two hextets, then parse via `ctorCore`. -/
def IPv6Address.ctorList (l : List Char) : Except String Nat :=
  if l = [] then Except.error "Address cannot be empty"
  else if l.contains '/' then Except.error "Unexpected '/' in address"
  else
    let parts := splitOnChar ':' l
    if parts.length < 3 then Except.error "At least 3 parts expected"
    else
      let lastPart := parts.getLastD []
      if lastPart.contains '.' then
        match IPv4Address.ctorList lastPart with
        | Except.error e => Except.error e
        | Except.ok ipv4_int =>
          IPv6Address.ctorCore
            (parts.dropLast ++ [Nat.toDigits 16 (ipv4_int / 65536), Nat.toDigits 16 (ipv4_int % 65536)])
      else IPv6Address.ctorCore parts

/-- CPython `IPv6Address(addr_str)`. -/
def IPv6Address.ctor (s : String) : Except String Nat :=
  IPv6Address.ctorList s.toList

/-- A raised Python exception, distinguishing `ValueError` from its subclass
`AddressValueError` (what `_validate_ip`'s `except` clause discriminates on). -/
inductive PyExc where
  | valueError : String → PyExc
  | addressValueError : String → PyExc
deriving DecidableEq, Repr

/-- A parsed IP address object. -/
inductive IpAddrKind where
  | v4 : Nat → IpAddrKind
  | v6 : Nat → IpAddrKind
deriving DecidableEq, Repr

/-- Python `repr` of a string, simplified to single quotes without escaping
(only used to build `ip_address`'s error message). -/
def pyReprStr (s : String) : String := "'" ++ s ++ "'"

/-- CPython `ipaddress.ip_address`: try `IPv4Address`, then `IPv6Address`,
catching their `AddressValueError`s; when both fail, raise a plain
`ValueError`. -/
def ip_address (s : String) : Except PyExc IpAddrKind :=
  match IPv4Address.ctor s with
  | Except.ok v => Except.ok (IpAddrKind.v4 v)
  | Except.error _ =>
    match IPv6Address.ctor s with
    | Except.ok v => Except.ok (IpAddrKind.v6 v)
    | Except.error _ =>
      Except.error (PyExc.valueError (pyReprStr s ++ " does not appear to be an IPv4 or IPv6 address"))

/-- Embedding of `IPLookupRequest._validate_ip` (src/models/request_models.py and the
identical copy in src/main.py): `None` and blank strings normalize to `None`;
otherwise the trimmed string must satisfy `ip_address`.  An
`AddressValueError` from `ip_address` would be converted to the stable
`ValueError` message; any other exception propagates. -/
def validate_ip (value : Option String) : Except PyExc (Option String) :=
  match value with
  | none => Except.ok none
  | some v =>
    let value_str := pyStrip v
    if value_str = "" then Except.ok none
    else
      match ip_address value_str with
      | Except.ok _ => Except.ok (some value_str)
      | Except.error (PyExc.addressValueError _) =>
        Except.error (PyExc.valueError "ip must be a valid IPv4 or IPv6 address")
      | Except.error e => Except.error e

/-! ## Request/response models and the lookup endpoint

`Provider` and `IPLookupResponse` are from src/models/request_models.py and
src/models/response_models.py.  The routed application module that wires the
multi-provider endpoint is not present in the source tree (src/main.py is a
superseded single-provider version whose symbols the repository's own API
tests no longer match), so the endpoint's translation step is modelled from
the spec, with the shapes the API tests pin. -/

/-- Embedding of `Provider` (src/models/request_models.py): the closed enumeration of
supported upstream providers. -/
inductive Provider where
  | ipapi_co : Provider
  | ip_api_com : Provider
deriving DecidableEq, Repr

/-- The wire value of each `Provider` member. -/
def Provider.value : Provider → String
  | Provider.ipapi_co => "ipapi.co"
  | Provider.ip_api_com => "ip-api.com"

/-- Embedding of `IPLookupResponse` (src/models/response_models.py): the outward success
body; `provider` is a required field. -/
structure IPLookupResponse where
  provider : Provider
  ip : String
  country : String
  country_name : String
  region : Option String := none
  city : Option String := none
  postal_code : Option String := none
  latitude : Option ℚ := none
  longitude : Option ℚ := none
  timezone : Option String := none
  isp : Option String := none
deriving DecidableEq, Repr

/-- Embedding of `_build_validation_error_payload` (src/exception_handlers.py): given the
pydantic error locations, produce the outward `(code, message)` pair; an
error whose location ends in `"ip"` selects the stable `invalid_ip` payload. -/
def build_validation_error_payload (locs : List (List String)) : String × String :=
  if locs.any (fun loc => loc.getLast? = some "ip") then
    ("invalid_ip", "The supplied IP address is not a valid IPv4 or IPv6 address.")
  else
    ("invalid_request", "Invalid request parameters")

/-- Embedding of `pydantic_validation_exception_handler` (src/exception_handlers.py): the
flat 400 validation-failure body, with the best-effort provider echo. -/
def validation_error_response (provider : Option String) (locs : List (List String)) : JObj :=
  let payload := build_validation_error_payload locs
  [("code", JVal.str payload.1),
   ("message", JVal.str payload.2),
   ("provider", match provider with | some s => JVal.str s | none => JVal.null)]

/-- Modelled from the spec: the lookup endpoint's translation from typed
adapter failures to outward `(HTTP status, code, message)`, per the error
table of spec §7 (`InvalidIpError` → 400/`invalid_ip`, `ReservedIpError` →
400/`reserved_ip`, `IpNotFoundError` → 404/`ip_not_found`,
`UpstreamServiceError` → 502/`upstream_error`, message = the exception's own
reason text).  The routed `ip_lookup` handler implementing this table is
missing from the source tree; the repository's API tests
(tests/test_main_api.py) pin exactly these four mappings. -/
def mapDomainErrorToHttp : DomainError → Nat × String × String
  | DomainError.invalidIp m => (400, "invalid_ip", m)
  | DomainError.reservedIp m => (400, "reserved_ip", m)
  | DomainError.ipNotFound m => (404, "ip_not_found", m)
  | DomainError.upstream m => (502, "upstream_error", m)

/-- Modelled from the spec: the lookup endpoint's 200 success body, built
from the selected provider and the adapter's normalized record (the routed
handler is missing from the source tree; `IPLookupResponse` itself is the
real model from src/models/response_models.py). -/
def buildSuccessResponse (sel : Provider) (d : IPGeolocationData) : IPLookupResponse :=
  { provider := sel
    ip := d.ip
    country := d.country
    country_name := d.country_name
    region := d.region
    city := d.city
    postal_code := d.postal_code
    latitude := d.latitude
    longitude := d.longitude
    timezone := d.timezone
    isp := d.isp }

/-- Modelled from the spec: the body of an adapter-failure response from
the lookup endpoint, whose routed handler is missing from the source tree.
The handler raises FastAPI's `HTTPException` with `detail={"code",
"message"}`, and the repository's API tests (tests/test_main_api.py) assert
on `body["detail"]["code"]`, so the serialized failure body nests the
payload under a `detail` key. -/
def buildFailureBody (e : DomainError) : JObj :=
  [("detail", JVal.obj
    [("code", JVal.str (mapDomainErrorToHttp e).2.1),
     ("message", JVal.str (mapDomainErrorToHttp e).2.2)])]

/-! ## Helper lemmas -/

theorem containsSeq_mono (n1 n2 : List Char) :
    ∀ l : List Char, containsSeq (n1 ++ n2) l = true → containsSeq n1 l = true := by
  intro l
  induction l with
  | nil =>
    simp only [containsSeq, List.isEmpty_iff, List.append_eq_nil]
    rintro ⟨h1, _⟩
    simp [h1]
  | cons c rest ih =>
    simp only [containsSeq, Bool.or_eq_true]
    rintro (h | h)
    · left
      rw [List.isPrefixOf_iff_prefix] at h ⊢
      exact ((n1.prefix_append n2).trans h)
    · right
      exact ih h

/-- If an extension of `a` occurs in `hay`, so does `a` itself. -/
theorem pyIn_mono (a b hay : String) (h : pyIn (a ++ b) hay = true) : pyIn a hay = true := by
  unfold pyIn at h ⊢
  have hl : (a ++ b).toList = a.toList ++ b.toList := by
    simp [String.toList, String.data_append]
  rw [hl] at h
  exact containsSeq_mono _ _ _ h

theorem toDigitsCore_ne_nil (b f n : Nat) (ds : List Char) (hds : ds ≠ []) :
    Nat.toDigitsCore b f n ds ≠ [] := by
  induction f generalizing n ds with
  | zero => simpa [Nat.toDigitsCore] using hds
  | succ f ih =>
    simp only [Nat.toDigitsCore]
    by_cases h : n / b = 0
    · simp [h]
    · simp only [h, if_neg]
      exact ih (n / b) _ (by simp)

theorem natRepr_ne_empty (n : Nat) : Nat.repr n ≠ "" := by
  unfold Nat.repr Nat.toDigits
  intro h
  have : Nat.toDigitsCore 10 (n + 1) n [] = [] := by
    have := congrArg String.data h
    simpa [List.asString] using this
  revert this
  simp only [Nat.toDigitsCore]
  by_cases h10 : n / 10 = 0
  · simp [h10]
  · simp only [h10, if_neg]
    exact toDigitsCore_ne_nil 10 n (n / 10) _ (by simp)

theorem intRepr_ne_empty (n : ℤ) : Int.repr n ≠ "" := by
  cases n with
  | ofNat m => simpa [Int.repr] using natRepr_ne_empty m
  | negSucc m =>
    simp only [Int.repr]
    intro h
    have := congrArg String.data h
    simp [String.data_append] at this

theorem toString_int_ne_empty (n : ℤ) : toString n ≠ "" :=
  intRepr_ne_empty n

theorem string_append_left_ne_empty (a b : String) (ha : a ≠ "") : a ++ b ≠ "" := by
  intro h
  have := congrArg String.data h
  simp only [String.data_append] at this
  rcases List.append_eq_nil.mp this with ⟨h1, _⟩
  exact ha (by cases a; simp_all)

/-- Python `str()` of a truthy JSON value is never the empty string. -/
theorem pyStr_truthy_ne_empty (v : JVal) (h : pyTruthy v = true) : pyStr v ≠ "" := by
  cases v with
  | null => simp [pyTruthy] at h
  | bool b =>
    cases b with
    | false => simp [pyTruthy] at h
    | true => simp [pyStr]
  | num q =>
    simp only [pyStr]
    exact string_append_left_ne_empty _ _ (toString_int_ne_empty q.num)
  | str s => simpa [pyTruthy] using h
  | arr l => simp [pyStr]
  | obj l => simp [pyStr]

theorem pyTruthy_pyOr_of_right (a b : JVal) (hb : pyTruthy b = true) :
    pyTruthy (pyOr a b) = true := by
  unfold pyOr
  by_cases h : pyTruthy a = true <;> simp [h, hb]

/-- The reason string provider A extracts is never empty. -/
theorem IpApiCo.reasonOf_ne_empty (d : JObj) : IpApiCo.reasonOf d ≠ "" := by
  apply pyStr_truthy_ne_empty
  apply pyTruthy_pyOr_of_right
  apply pyTruthy_pyOr_of_right
  simp [pyTruthy]

/-- The message string provider B extracts is never empty. -/
theorem IpApiCom.messageOf_ne_empty (d : JObj) : IpApiCom.messageOf d ≠ "" := by
  apply pyStr_truthy_ne_empty
  apply pyTruthy_pyOr_of_right
  simp [pyTruthy]

theorem pyIn_invalid_full (hay : String) :
    pyIn "invalid ip address" hay = true → pyIn "invalid" hay = true := by
  intro h
  exact pyIn_mono "invalid" " ip address" hay h

theorem pyIn_reserved_full (hay : String) :
    pyIn "reserved ip address" hay = true → pyIn "reserved" hay = true := by
  intro h
  exact pyIn_mono "reserved" " ip address" hay h

theorem pyIn_invalid_query_full (hay : String) :
    pyIn "invalid query" hay = true → pyIn "invalid" hay = true := by
  intro h
  exact pyIn_mono "invalid" " query" hay h

/-- C1: Provider A's embedded-error-flag classifier.  For every JSON body:
if the error flag is falsy the body classifies as success; otherwise the
extracted reason (never empty) classifies in priority order — `invalid`
substring → `InvalidIpError`, else `reserved` substring or a literal `True`
reserved flag → `ReservedIpError`, else `ratelimited`/`quota` substring →
`UpstreamServiceError`, else `UpstreamServiceError` carrying the raw reason —
and the concrete body `{"error":true,"reason":"Reserved IP Address",
"reserved":true}` classifies as `ReservedIpError`. -/
theorem C1_provider_a_error_classifier (d : JObj) :
    (pyTruthy (jget d "error") = false → IpApiCo.handle_provider_error d = none) ∧
    (pyTruthy (jget d "error") = true →
      IpApiCo.reasonOf d ≠ "" ∧
      (pyIn "invalid" (pyLower (IpApiCo.reasonOf d)) = true →
        IpApiCo.handle_provider_error d = some (DomainError.invalidIp (IpApiCo.reasonOf d))) ∧
      (pyIn "invalid" (pyLower (IpApiCo.reasonOf d)) = false →
        (pyIn "reserved" (pyLower (IpApiCo.reasonOf d)) = true ∨ isTrueBool (jget d "reserved") = true) →
        IpApiCo.handle_provider_error d = some (DomainError.reservedIp (IpApiCo.reasonOf d))) ∧
      (pyIn "invalid" (pyLower (IpApiCo.reasonOf d)) = false →
        pyIn "reserved" (pyLower (IpApiCo.reasonOf d)) = false →
        isTrueBool (jget d "reserved") = false →
        (pyIn "ratelimited" (pyLower (IpApiCo.reasonOf d)) = true ∨
          pyIn "quota" (pyLower (IpApiCo.reasonOf d)) = true) →
        IpApiCo.handle_provider_error d =
          some (DomainError.upstream ("IP provider rate limit or quota exceeded: " ++ IpApiCo.reasonOf d))) ∧
      (pyIn "invalid" (pyLower (IpApiCo.reasonOf d)) = false →
        pyIn "reserved" (pyLower (IpApiCo.reasonOf d)) = false →
        isTrueBool (jget d "reserved") = false →
        pyIn "ratelimited" (pyLower (IpApiCo.reasonOf d)) = false →
        pyIn "quota" (pyLower (IpApiCo.reasonOf d)) = false →
        IpApiCo.handle_provider_error d = some (DomainError.upstream (IpApiCo.reasonOf d)))) ∧
    IpApiCo.handle_provider_error
        [("error", JVal.bool true), ("reason", JVal.str "Reserved IP Address"), ("reserved", JVal.bool true)]
      = some (DomainError.reservedIp "Reserved IP Address") := by
  refine ⟨?_, ?_, by decide⟩
  · intro h
    simp [IpApiCo.handle_provider_error, h]
  · intro h
    refine ⟨IpApiCo.reasonOf_ne_empty d, ?_, ?_, ?_, ?_⟩
    · intro hinv
      simp [IpApiCo.handle_provider_error, h, hinv]
    · intro hinv hres
      have h1 : pyIn "invalid ip address" (pyLower (IpApiCo.reasonOf d)) = false := by
        cases hc : pyIn "invalid ip address" (pyLower (IpApiCo.reasonOf d))
        · rfl
        · exact absurd (pyIn_invalid_full _ hc) (by simp [hinv])
      rcases hres with hres | hres <;>
        simp [IpApiCo.handle_provider_error, h, hinv, h1, hres]
    · intro hinv hres hflag hrate
      have h1 : pyIn "invalid ip address" (pyLower (IpApiCo.reasonOf d)) = false := by
        cases hc : pyIn "invalid ip address" (pyLower (IpApiCo.reasonOf d))
        · rfl
        · exact absurd (pyIn_invalid_full _ hc) (by simp [hinv])
      have h2 : pyIn "reserved ip address" (pyLower (IpApiCo.reasonOf d)) = false := by
        cases hc : pyIn "reserved ip address" (pyLower (IpApiCo.reasonOf d))
        · rfl
        · exact absurd (pyIn_reserved_full _ hc) (by simp [hres])
      rcases hrate with hrate | hrate <;>
        simp [IpApiCo.handle_provider_error, h, hinv, h1, hres, h2, hflag, hrate]
    · intro hinv hres hflag hrate hquota
      have h1 : pyIn "invalid ip address" (pyLower (IpApiCo.reasonOf d)) = false := by
        cases hc : pyIn "invalid ip address" (pyLower (IpApiCo.reasonOf d))
        · rfl
        · exact absurd (pyIn_invalid_full _ hc) (by simp [hinv])
      have h2 : pyIn "reserved ip address" (pyLower (IpApiCo.reasonOf d)) = false := by
        cases hc : pyIn "reserved ip address" (pyLower (IpApiCo.reasonOf d))
        · rfl
        · exact absurd (pyIn_reserved_full _ hc) (by simp [hres])
      simp [IpApiCo.handle_provider_error, h, hinv, h1, hres, h2, hflag, hrate, hquota]

/-- Witness for C1: a body whose reason contains both "invalid" and
"reserved" classifies as `InvalidIpError` (invalid wins). -/
theorem C1_provider_a_error_classifier_witness :
    pyTruthy (jget [("error", JVal.bool true), ("reason", JVal.str "Invalid and Reserved IP")] "error") = true ∧
    pyIn "invalid" (pyLower (IpApiCo.reasonOf
      [("error", JVal.bool true), ("reason", JVal.str "Invalid and Reserved IP")])) = true ∧
    IpApiCo.handle_provider_error [("error", JVal.bool true), ("reason", JVal.str "Invalid and Reserved IP")]
      = some (DomainError.invalidIp "Invalid and Reserved IP") := by
  refine ⟨by decide, by decide, ?_⟩
  have h := (C1_provider_a_error_classifier
    [("error", JVal.bool true), ("reason", JVal.str "Invalid and Reserved IP")]).2.1 (by decide)
  have h2 := h.2.1 (by decide)
  simpa using h2

/-- Counterexample to C2 as stated: the body `{"status":"SUCCESS","message":
"invalid query"}` has a status field that is not the string `"success"`, and
a message containing "invalid", so the claim requires `InvalidIpError`; the
adapter lowercases the status before comparing and classifies the body as
success instead. -/
theorem C2_counterexample :
    jget [("status", JVal.str "SUCCESS"), ("message", JVal.str "invalid query")] "status"
      = JVal.str "SUCCESS" ∧
    ("SUCCESS" : String) ≠ "success" ∧
    pyIn "invalid" (pyLower "invalid query") = true ∧
    IpApiCom.handle_provider_status [("status", JVal.str "SUCCESS"), ("message", JVal.str "invalid query")]
      = none := by
  refine ⟨rfl, by decide, by decide, by decide⟩

/-- C2 (amended): Provider B's status-string classifier, with the status
compared case-insensitively: a body whose `str(status or "")` lowercases to
"success" is a success; any other body classifies its message (never empty)
in priority order — `invalid` → `InvalidIpError`, else `private range` or
`reserved range` → `ReservedIpError`, else `quota` or `limit` →
`UpstreamServiceError`, else `not found` → `IpNotFoundError`, else
`UpstreamServiceError` with the raw message — and the concrete body
`{"status":"fail","message":"invalid query"}` raises `InvalidIpError`. -/
theorem C2_provider_b_status_classifier (d : JObj) :
    (IpApiCom.statusValue d = "success" → IpApiCom.handle_provider_status d = none) ∧
    (IpApiCom.statusValue d ≠ "success" →
      IpApiCom.messageOf d ≠ "" ∧
      (pyIn "invalid" (pyLower (IpApiCom.messageOf d)) = true →
        IpApiCom.handle_provider_status d = some (DomainError.invalidIp (IpApiCom.messageOf d))) ∧
      (pyIn "invalid" (pyLower (IpApiCom.messageOf d)) = false →
        (pyIn "private range" (pyLower (IpApiCom.messageOf d)) = true ∨
          pyIn "reserved range" (pyLower (IpApiCom.messageOf d)) = true) →
        IpApiCom.handle_provider_status d = some (DomainError.reservedIp (IpApiCom.messageOf d))) ∧
      (pyIn "invalid" (pyLower (IpApiCom.messageOf d)) = false →
        pyIn "private range" (pyLower (IpApiCom.messageOf d)) = false →
        pyIn "reserved range" (pyLower (IpApiCom.messageOf d)) = false →
        (pyIn "quota" (pyLower (IpApiCom.messageOf d)) = true ∨
          pyIn "limit" (pyLower (IpApiCom.messageOf d)) = true) →
        IpApiCom.handle_provider_status d =
          some (DomainError.upstream ("IP provider rate limit or quota exceeded: " ++ IpApiCom.messageOf d))) ∧
      (pyIn "invalid" (pyLower (IpApiCom.messageOf d)) = false →
        pyIn "private range" (pyLower (IpApiCom.messageOf d)) = false →
        pyIn "reserved range" (pyLower (IpApiCom.messageOf d)) = false →
        pyIn "quota" (pyLower (IpApiCom.messageOf d)) = false →
        pyIn "limit" (pyLower (IpApiCom.messageOf d)) = false →
        pyIn "not found" (pyLower (IpApiCom.messageOf d)) = true →
        IpApiCom.handle_provider_status d = some (DomainError.ipNotFound (IpApiCom.messageOf d))) ∧
      (pyIn "invalid" (pyLower (IpApiCom.messageOf d)) = false →
        pyIn "private range" (pyLower (IpApiCom.messageOf d)) = false →
        pyIn "reserved range" (pyLower (IpApiCom.messageOf d)) = false →
        pyIn "quota" (pyLower (IpApiCom.messageOf d)) = false →
        pyIn "limit" (pyLower (IpApiCom.messageOf d)) = false →
        pyIn "not found" (pyLower (IpApiCom.messageOf d)) = false →
        IpApiCom.handle_provider_status d = some (DomainError.upstream (IpApiCom.messageOf d)))) ∧
    IpApiCom.handle_provider_status [("status", JVal.str "fail"), ("message", JVal.str "invalid query")]
      = some (DomainError.invalidIp "invalid query") := by
  refine ⟨?_, ?_, by decide⟩
  · intro h
    simp [IpApiCom.handle_provider_status, h]
  · intro h
    refine ⟨IpApiCom.messageOf_ne_empty d, ?_, ?_, ?_, ?_, ?_⟩
    · intro hinv
      simp [IpApiCom.handle_provider_status, h, hinv]
    · intro hinv hres
      have h1 : pyIn "invalid query" (pyLower (IpApiCom.messageOf d)) = false := by
        cases hc : pyIn "invalid query" (pyLower (IpApiCom.messageOf d))
        · rfl
        · exact absurd (pyIn_invalid_query_full _ hc) (by simp [hinv])
      rcases hres with hres | hres <;>
        simp [IpApiCom.handle_provider_status, h, hinv, h1, hres]
    · intro hinv hpriv hres hq
      have h1 : pyIn "invalid query" (pyLower (IpApiCom.messageOf d)) = false := by
        cases hc : pyIn "invalid query" (pyLower (IpApiCom.messageOf d))
        · rfl
        · exact absurd (pyIn_invalid_query_full _ hc) (by simp [hinv])
      rcases hq with hq | hq <;>
        simp [IpApiCom.handle_provider_status, h, hinv, h1, hpriv, hres, hq]
    · intro hinv hpriv hres hq hl hnf
      have h1 : pyIn "invalid query" (pyLower (IpApiCom.messageOf d)) = false := by
        cases hc : pyIn "invalid query" (pyLower (IpApiCom.messageOf d))
        · rfl
        · exact absurd (pyIn_invalid_query_full _ hc) (by simp [hinv])
      simp [IpApiCom.handle_provider_status, h, hinv, h1, hpriv, hres, hq, hl, hnf]
    · intro hinv hpriv hres hq hl hnf
      have h1 : pyIn "invalid query" (pyLower (IpApiCom.messageOf d)) = false := by
        cases hc : pyIn "invalid query" (pyLower (IpApiCom.messageOf d))
        · rfl
        · exact absurd (pyIn_invalid_query_full _ hc) (by simp [hinv])
      simp [IpApiCom.handle_provider_status, h, hinv, h1, hpriv, hres, hq, hl, hnf]

/-- Witness for C2 (amended): a failing body with a "not found" message, after
all higher-priority substrings are absent, classifies as `IpNotFoundError`. -/
theorem C2_provider_b_status_classifier_witness :
    IpApiCom.statusValue [("status", JVal.str "fail"), ("message", JVal.str "IP not found")] ≠ "success" ∧
    IpApiCom.handle_provider_status [("status", JVal.str "fail"), ("message", JVal.str "IP not found")]
      = some (DomainError.ipNotFound "IP not found") := by
  refine ⟨by decide, ?_⟩
  have h := (C2_provider_b_status_classifier
    [("status", JVal.str "fail"), ("message", JVal.str "IP not found")]).2.1 (by decide)
  have h2 := h.2.2.2.2.1 (by decide) (by decide) (by decide) (by decide) (by decide) (by decide)
  simpa using h2

/-- C3: for both adapters, every HTTP 404 response classifies as
`IpNotFoundError` regardless of its body — the status interpretation runs
before JSON decoding, so even a body that would parse as a success payload
(or fail to parse at all) is never consulted. -/
theorem C3_http_404_precedence (r : HttpResponse) (h : r.status = 404) :
    IpApiCo.request r
      = Except.error (DomainError.ipNotFound "No geolocation information found for this IP address.") ∧
    IpApiCom.request r
      = Except.error (DomainError.ipNotFound "No geolocation information found for this IP address.") := by
  constructor
  · simp [IpApiCo.request, IpApiCo.handle_http_errors, h]
  · simp [IpApiCom.request, IpApiCom.handle_http_errors, h]

/-- Witness for C3: a 404 response whose body would decode as a success
payload still classifies as `IpNotFoundError` for both adapters. -/
theorem C3_http_404_precedence_witness :
    IpApiCo.request
        { status := 404, text := "ok-looking",
          json := some [("status", JVal.str "success"), ("ip", JVal.str "8.8.8.8")] }
      = Except.error (DomainError.ipNotFound "No geolocation information found for this IP address.") ∧
    IpApiCom.request
        { status := 404, text := "ok-looking",
          json := some [("status", JVal.str "success"), ("ip", JVal.str "8.8.8.8")] }
      = Except.error (DomainError.ipNotFound "No geolocation information found for this IP address.") :=
  C3_http_404_precedence
    { status := 404, text := "ok-looking",
      json := some [("status", JVal.str "success"), ("ip", JVal.str "8.8.8.8")] } rfl

/-- Counterexample to C4 as stated: HTTP 401 is a 4xx status other than 404
and 429, yet provider A raises no `UpstreamServiceError` for it — the status
falls through the adapter's explicit 400/403/405/429 cases, the body IS
parsed, and the request succeeds. -/
theorem C4_counterexample :
    (400 ≤ 401 ∧ 401 < 500 ∧ 401 ≠ 404 ∧ 401 ≠ 429) ∧
    IpApiCo.handle_http_errors { status := 401, text := "Unauthorized", json := some [("ip", JVal.str "1.2.3.4")] }
      = none ∧
    IpApiCo.request { status := 401, text := "Unauthorized", json := some [("ip", JVal.str "1.2.3.4")] }
      = Except.ok
          { ip := "1.2.3.4", country := "", country_name := "", region := none, city := none,
            postal_code := none, latitude := none, longitude := none, timezone := none, isp := none } := by
  refine ⟨by decide, by decide, rfl⟩

/-- C4 (amended): only provider B maps every 4xx other than 404/429 to
`UpstreamServiceError` with the status code and raw body text in the message
(and without parsing the body); provider A maps only 400 (status code and
body text), 403 and 405 (fixed messages carrying the status code but not the
body text), and lets any other 4xx fall through to body parsing. -/
theorem C4_other_4xx_handling (r : HttpResponse) :
    (400 ≤ r.status → r.status < 500 → r.status ≠ 404 → r.status ≠ 429 →
      IpApiCom.request r = Except.error (DomainError.upstream
        ("IP provider returned HTTP " ++ toString r.status ++ ": " ++ r.text))) ∧
    (r.status = 400 →
      IpApiCo.request r = Except.error (DomainError.upstream
        ("IP provider returned HTTP 400 Bad Request: " ++ r.text))) ∧
    (r.status = 403 →
      IpApiCo.request r = Except.error (DomainError.upstream
        "Authentication with IP provider failed (HTTP 403).")) ∧
    (r.status = 405 →
      IpApiCo.request r = Except.error (DomainError.upstream
        "HTTP method not allowed when calling IP provider (HTTP 405).")) ∧
    (400 ≤ r.status → r.status < 500 →
      r.status ≠ 400 → r.status ≠ 403 → r.status ≠ 404 → r.status ≠ 405 → r.status ≠ 429 →
      IpApiCo.handle_http_errors r = none) := by
  refine ⟨?_, ?_, ?_, ?_, ?_⟩
  · intro h1 h2 h404 h429
    have h5 : ¬ (500 ≤ r.status) := by omega
    simp [IpApiCom.request, IpApiCom.handle_http_errors, h404, h429, h1, h2, h5]
  · intro h
    simp [IpApiCo.request, IpApiCo.handle_http_errors, h]
  · intro h
    simp [IpApiCo.request, IpApiCo.handle_http_errors, h]
  · intro h
    simp [IpApiCo.request, IpApiCo.handle_http_errors, h]
  · intro h1 h2 h400 h403 h404 h405 h429
    have h5 : ¬ (500 ≤ r.status) := by omega
    simp [IpApiCo.handle_http_errors, h400, h403, h404, h405, h429, h5]

/-- Witness for C4 (amended): HTTP 418 at provider B raises
`UpstreamServiceError` with the status code and body text; at provider A the
HTTP step maps nothing. -/
theorem C4_other_4xx_handling_witness :
    IpApiCom.request { status := 418, text := "teapot", json := none }
      = Except.error (DomainError.upstream "IP provider returned HTTP 418: teapot") ∧
    IpApiCo.handle_http_errors { status := 418, text := "teapot", json := none } = none := by
  have h := C4_other_4xx_handling { status := 418, text := "teapot", json := none }
  refine ⟨?_, ?_⟩
  · have := h.1 (by decide) (by decide) (by decide) (by decide)
    simpa using this
  · exact h.2.2.2.2 (by decide) (by decide) (by decide) (by decide) (by decide) (by decide) (by decide)

/-- C6: latitude/longitude coercion is total and idempotent: every input
yields either absence or a rational that is an exact multiple of 10⁻⁶
(6-decimal rounding), and feeding a produced value back through the coercion
returns it unchanged. -/
theorem C6_lat_lon_coercion (v : JVal) :
    (coerce_lat_lon v = none ∨ ∃ q, coerce_lat_lon v = some q ∧ (q * 1000000).den = 1) ∧
    (∀ q, coerce_lat_lon v = some q → coerce_lat_lon (JVal.num q) = some q) := by
  have key : ∀ q, coerce_lat_lon v = some q → ∃ q0, q = pyRound6 q0 := by
    intro q hq
    cases v with
    | null => simp [coerce_lat_lon] at hq
    | bool b =>
      simp only [coerce_lat_lon, pyFloat] at hq
      exact ⟨_, (Option.some.injEq _ _ ▸ hq).symm⟩
    | num q' =>
      simp only [coerce_lat_lon, pyFloat] at hq
      exact ⟨q', (Option.some.injEq _ _ ▸ hq).symm⟩
    | str s =>
      simp only [coerce_lat_lon, pyFloat] at hq
      cases hp : pyFloatOfString s with
      | none => rw [hp] at hq; simp at hq
      | some q0 =>
        rw [hp] at hq
        simp only [Option.some.injEq] at hq
        exact ⟨q0, hq.symm⟩
    | arr l => simp [coerce_lat_lon, pyFloat] at hq
    | obj l => simp [coerce_lat_lon, pyFloat] at hq
  constructor
  · cases hc : coerce_lat_lon v with
    | none => exact Or.inl rfl
    | some q =>
      obtain ⟨q0, rfl⟩ := key q hc
      exact Or.inr ⟨_, rfl, pyRound6_den q0⟩
  · intro q hq
    obtain ⟨q0, rfl⟩ := key q hq
    simp [coerce_lat_lon, pyFloat, pyRound6_idem]

/-- Witness for C6: the numeric string "1.5" coerces to 3/2 (already a
6-decimal multiple), and re-coercing that output returns it unchanged. -/
theorem C6_lat_lon_coercion_witness :
    coerce_lat_lon (JVal.str "1.5") = some ((3 : ℚ) / 2) ∧
    coerce_lat_lon (JVal.num ((3 : ℚ) / 2)) = some ((3 : ℚ) / 2) := by
  have h1 : coerce_lat_lon (JVal.str "1.5") = some ((3 : ℚ) / 2) := by
    with_unfolding_all decide
  exact ⟨h1, (C6_lat_lon_coercion (JVal.str "1.5")).2 _ h1⟩

/-- Counterexample to C9 as stated: the empty JSON object `{}` carries no
error flag, so it passes provider A's error-classification step, yet the
normalized record built from it has empty `ip`, `country` and `country_name`
fields (the adapter defaults missing required fields to `""`). -/
theorem C9_counterexample :
    IpApiCo.handle_provider_error ([] : JObj) = none ∧
    (IpApiCo.normalize_payload ([] : JObj)).ip = "" ∧
    (IpApiCo.normalize_payload ([] : JObj)).country = "" ∧
    (IpApiCo.normalize_payload ([] : JObj)).country_name = "" := by
  refine ⟨by decide, rfl, rfl, rfl⟩

/-- C9 (amended): the normalized record's `ip`, `country` and `country_name`
fields are always defined strings: a missing provider field normalizes to
the empty string, and a non-empty provider string is carried over verbatim
(provider A reads `ip`/`country`/`country_name`; provider B reads
`query`/`countryCode`/`country`). -/
theorem C9_required_fields_normalization (d : JObj) :
    ((jget d "ip" = JVal.null → (IpApiCo.normalize_payload d).ip = "") ∧
     (∀ s, jget d "ip" = JVal.str s → s ≠ "" → (IpApiCo.normalize_payload d).ip = s) ∧
     (∀ s, jget d "country" = JVal.str s → s ≠ "" → (IpApiCo.normalize_payload d).country = s) ∧
     (∀ s, jget d "country_name" = JVal.str s → s ≠ "" →
        (IpApiCo.normalize_payload d).country_name = s)) ∧
    ((jget d "query" = JVal.null → (IpApiCom.normalize_payload d).ip = "") ∧
     (∀ s, jget d "query" = JVal.str s → s ≠ "" → (IpApiCom.normalize_payload d).ip = s) ∧
     (∀ s, jget d "countryCode" = JVal.str s → s ≠ "" → (IpApiCom.normalize_payload d).country = s) ∧
     (∀ s, jget d "country" = JVal.str s → s ≠ "" →
        (IpApiCom.normalize_payload d).country_name = s)) := by
  refine ⟨⟨?_, ?_, ?_, ?_⟩, ⟨?_, ?_, ?_, ?_⟩⟩
  · intro h
    simp [IpApiCo.normalize_payload, h, pyOr, pyTruthy, pyStr]
  · intro s h hs
    simp [IpApiCo.normalize_payload, h, pyOr, pyTruthy, pyStr, hs]
  · intro s h hs
    simp [IpApiCo.normalize_payload, h, pyOr, pyTruthy, pyStr, hs]
  · intro s h hs
    simp [IpApiCo.normalize_payload, h, pyOr, pyTruthy, pyStr, hs]
  · intro h
    simp [IpApiCom.normalize_payload, h, pyOr, pyTruthy, pyStr]
  · intro s h hs
    simp [IpApiCom.normalize_payload, h, pyOr, pyTruthy, pyStr, hs]
  · intro s h hs
    simp [IpApiCom.normalize_payload, h, pyOr, pyTruthy, pyStr, hs]
  · intro s h hs
    simp [IpApiCom.normalize_payload, h, pyOr, pyTruthy, pyStr, hs]

/-- Witness for C9 (amended): a concrete success payload for provider A
yields a record carrying the provider's non-empty `ip` and country fields. -/
theorem C9_required_fields_normalization_witness :
    (IpApiCo.normalize_payload
        [("ip", JVal.str "8.8.8.8"), ("country", JVal.str "US"),
         ("country_name", JVal.str "United States")]).ip = "8.8.8.8" ∧
    (IpApiCo.normalize_payload
        [("ip", JVal.str "8.8.8.8"), ("country", JVal.str "US"),
         ("country_name", JVal.str "United States")]).country = "US" ∧
    (IpApiCo.normalize_payload
        [("ip", JVal.str "8.8.8.8"), ("country", JVal.str "US"),
         ("country_name", JVal.str "United States")]).country_name = "United States" := by
  have h := C9_required_fields_normalization
    [("ip", JVal.str "8.8.8.8"), ("country", JVal.str "US"),
     ("country_name", JVal.str "United States")]
  exact ⟨h.1.2.1 "8.8.8.8" rfl (by decide), h.1.2.2.1 "US" rfl (by decide),
    h.1.2.2.2 "United States" rfl (by decide)⟩

theorem pyReprStr_msg_ne_stable (t : String) :
    pyReprStr t ++ " does not appear to be an IPv4 or IPv6 address"
      ≠ "ip must be a valid IPv4 or IPv6 address" := by
  intro h
  have hd := congrArg String.data h
  simp [pyReprStr, String.data_append] at hd

/-- C10: the `except AddressValueError` branch of `_validate_ip` is dead
code for every input: `ip_address` catches the constructors'
`AddressValueError`s and only ever raises a plain `ValueError`, so a failing
validation always carries the library's own message, never the validator's
stable "ip must be a valid IPv4 or IPv6 address" message — yet invalid
non-empty inputs are still rejected, via that propagating `ValueError`. -/
theorem C10_dead_except_branch (s : String) :
    (∀ e, ip_address s = Except.error e →
      e = PyExc.valueError (pyReprStr s ++ " does not appear to be an IPv4 or IPv6 address")) ∧
    (∀ e, validate_ip (some s) = Except.error e →
      e = PyExc.valueError (pyReprStr (pyStrip s) ++ " does not appear to be an IPv4 or IPv6 address") ∧
      e ≠ PyExc.valueError "ip must be a valid IPv4 or IPv6 address") := by
  have part1 : ∀ t e, ip_address t = Except.error e →
      e = PyExc.valueError (pyReprStr t ++ " does not appear to be an IPv4 or IPv6 address") := by
    intro t e he
    unfold ip_address at he
    cases h4 : IPv4Address.ctor t with
    | ok v => rw [h4] at he; simp at he
    | error e4 =>
      rw [h4] at he
      cases h6 : IPv6Address.ctor t with
      | ok v => rw [h6] at he; simp at he
      | error e6 =>
        rw [h6] at he
        simp only [Except.error.injEq] at he
        exact he.symm
  refine ⟨part1 s, ?_⟩
  intro e he
  simp only [validate_ip] at he
  by_cases hb : pyStrip s = ""
  · rw [if_pos hb] at he
    simp at he
  · rw [if_neg hb] at he
    cases hip : ip_address (pyStrip s) with
    | ok v => rw [hip] at he; simp at he
    | error e' =>
      rw [hip] at he
      have he' := part1 _ _ hip
      subst he'
      simp only [Except.error.injEq] at he
      subst he
      exact ⟨rfl, fun hc => pyReprStr_msg_ne_stable _ (PyExc.valueError.inj hc)⟩

/-- Witness for C10: on the invalid input "abc", `ip_address` raises the
library `ValueError`, and validation rejects with that same message rather
than the dead branch's stable message. -/
theorem C10_dead_except_branch_witness :
    validate_ip (some "abc")
      = Except.error (PyExc.valueError "'abc' does not appear to be an IPv4 or IPv6 address") ∧
    PyExc.valueError "'abc' does not appear to be an IPv4 or IPv6 address"
      ≠ PyExc.valueError "ip must be a valid IPv4 or IPv6 address" := by
  have hv : validate_ip (some "abc")
      = Except.error (PyExc.valueError "'abc' does not appear to be an IPv4 or IPv6 address") := rfl
  have h := (C10_dead_except_branch "abc").2 _ hv
  exact ⟨hv, h.2⟩

/-- C7: the lookup endpoint's translation from typed adapter failures to
outward responses maps `InvalidIpError` to 400/`invalid_ip`,
`ReservedIpError` to 400/`reserved_ip`, `IpNotFoundError` to
404/`ip_not_found` and `UpstreamServiceError` to 502/`upstream_error`, in
each case carrying the exception's own reason text as the outward message —
and the four cases are exhaustive over the error taxonomy. -/
theorem C7_error_translation (m : String) :
    mapDomainErrorToHttp (DomainError.invalidIp m) = (400, "invalid_ip", m) ∧
    mapDomainErrorToHttp (DomainError.reservedIp m) = (400, "reserved_ip", m) ∧
    mapDomainErrorToHttp (DomainError.ipNotFound m) = (404, "ip_not_found", m) ∧
    mapDomainErrorToHttp (DomainError.upstream m) = (502, "upstream_error", m) ∧
    (∀ e : DomainError, (mapDomainErrorToHttp e).1 = 400 ∨ (mapDomainErrorToHttp e).1 = 404 ∨
      (mapDomainErrorToHttp e).1 = 502) := by
  refine ⟨rfl, rfl, rfl, rfl, ?_⟩
  intro e
  cases e <;> simp [mapDomainErrorToHttp]

/-- Counterexample to C8 as stated: the 400 failure body produced for a
`ReservedIpError` nests `code` and `message` under a `detail` key (FastAPI's
`HTTPException` serialization, as the repository's API tests assert via
`body["detail"]["code"]`), so it is not of the flat shape
`{"code": ..., "message": ..., "provider": ...}` — it has no top-level
`code` or `provider` key at all. -/
theorem C8_counterexample :
    buildFailureBody (DomainError.reservedIp "Reserved IP Address")
      = [("detail", JVal.obj [("code", JVal.str "reserved_ip"),
                              ("message", JVal.str "Reserved IP Address")])] ∧
    List.lookup "code" (buildFailureBody (DomainError.reservedIp "Reserved IP Address")) = none ∧
    List.lookup "provider" (buildFailureBody (DomainError.reservedIp "Reserved IP Address")) = none := by
  exact ⟨rfl, rfl, rfl⟩

/-- C8 (amended): every success body carries the provider selector used for
the lookup (`IPLookupResponse.provider` is a required field); the flat
`{"code", "message", "provider"}` body shape holds for the
validation-error handler's responses (src/exception_handlers.py); the
adapter-failure responses (400/404/502 from the lookup endpoint) instead
nest `{"code", "message"}` under a `detail` key and carry no provider. -/
theorem C8_provider_echo (sel : Provider) (d : IPGeolocationData) (e : DomainError)
    (p : Option String) (locs : List (List String)) :
    (buildSuccessResponse sel d).provider = sel ∧
    List.lookup "code" (validation_error_response p locs)
      = some (JVal.str (build_validation_error_payload locs).1) ∧
    List.lookup "message" (validation_error_response p locs)
      = some (JVal.str (build_validation_error_payload locs).2) ∧
    List.lookup "provider" (validation_error_response p locs)
      = some (match p with | some s => JVal.str s | none => JVal.null) ∧
    List.lookup "detail" (buildFailureBody e)
      = some (JVal.obj [("code", JVal.str (mapDomainErrorToHttp e).2.1),
                        ("message", JVal.str (mapDomainErrorToHttp e).2.2)]) ∧
    List.lookup "provider" (buildFailureBody e) = none := by
  refine ⟨rfl, ?_, ?_, ?_, rfl, rfl⟩ <;> simp [validation_error_response, List.lookup]

/-! ## Lemmas towards C5: a parsed IP literal has no surrounding whitespace -/

theorem mapExcept_ok_mem {α β ε : Type} (f : α → Except ε β) :
    ∀ (l : List α) (vs : List β), mapExcept f l = Except.ok vs → ∀ a ∈ l, ∃ b, f a = Except.ok b := by
  intro l
  induction l with
  | nil =>
    intro vs _ a ha
    simp at ha
  | cons x xs ih =>
    intro vs h a ha
    simp only [mapExcept] at h
    cases hf : f x with
    | error e => rw [hf] at h; simp at h
    | ok b =>
      rw [hf] at h
      cases hm : mapExcept f xs with
      | error e => rw [hm] at h; simp at h
      | ok bs =>
        rcases List.mem_cons.mp ha with rfl | ha'
        · exact ⟨b, hf⟩
        · exact ih bs hm a ha'

theorem pyIsSpace_true_cases (c : Char) (h : pyIsSpace c = true) :
    c = ' ' ∨ c = '\t' ∨ c = '\n' ∨ c = '\r' ∨ c = '\x0b' ∨ c = '\x0c' := by
  simpa [pyIsSpace] using h

theorem isDigit_not_space (c : Char) (h : c.isDigit = true) : pyIsSpace c = false := by
  cases hs : pyIsSpace c
  · rfl
  · rcases pyIsSpace_true_cases c hs with rfl | rfl | rfl | rfl | rfl | rfl <;>
      exact absurd h (by decide)

theorem pyIsHexDigit_not_space (c : Char) (h : pyIsHexDigit c = true) : pyIsSpace c = false := by
  cases hs : pyIsSpace c
  · rfl
  · rcases pyIsSpace_true_cases c hs with rfl | rfl | rfl | rfl | rfl | rfl <;>
      exact absurd h (by decide)

theorem dropWhile_space_eq_self (l : List Char)
    (h : ∀ c, l.head? = some c → pyIsSpace c = false) : l.dropWhile pyIsSpace = l := by
  cases l with
  | nil => rfl
  | cons a t =>
    rw [List.dropWhile_cons, h a rfl]
    simp

theorem pyStripList_eq_self (l : List Char)
    (h1 : ∀ c, l.head? = some c → pyIsSpace c = false)
    (h2 : ∀ c, l.getLast? = some c → pyIsSpace c = false) : pyStripList l = l := by
  unfold pyStripList
  rw [dropWhile_space_eq_self l h1]
  rw [dropWhile_space_eq_self l.reverse
    (fun c hc => h2 c (by rwa [List.head?_reverse] at hc))]
  exact List.reverse_reverse l

theorem pyStrip_eq_self (s : String)
    (h1 : ∀ c, s.toList.head? = some c → pyIsSpace c = false)
    (h2 : ∀ c, s.toList.getLast? = some c → pyIsSpace c = false) : pyStrip s = s := by
  unfold pyStrip
  rw [pyStripList_eq_self s.toList h1 h2]
  rfl

theorem joinSep_head? (sep : Char) (p : List Char) (ps : List (List Char)) (hp : p ≠ []) :
    (joinSep sep (p :: ps)).head? = p.head? := by
  cases ps with
  | nil => rfl
  | cons q qs =>
    obtain ⟨c, t, rfl⟩ := List.exists_cons_of_ne_nil hp
    rfl

theorem joinSep_head?_nil_first (sep : Char) (q : List Char) (qs : List (List Char)) :
    (joinSep sep ([] :: q :: qs)).head? = some sep := rfl

theorem mem_of_getLast?_eq_some {α : Type} {l : List α} {a : α} (h : l.getLast? = some a) :
    a ∈ l := by
  rw [← List.head?_reverse] at h
  exact List.mem_reverse.mp (List.mem_of_mem_head? h)

theorem joinSep_getLast? (sep : Char) :
    ∀ (ps : List (List Char)) (q : List Char), ps.getLast? = some q → q ≠ [] →
      (joinSep sep ps).getLast? = q.getLast? := by
  intro ps
  induction ps with
  | nil =>
    intro q hq
    simp at hq
  | cons p ps ih =>
    intro q hq hne
    cases ps with
    | nil =>
      simp only [List.getLast?_singleton, Option.some.injEq] at hq
      subst hq
      rfl
    | cons r rs =>
      have hq' : (r :: rs).getLast? = some q := by
        rw [List.getLast?_cons_cons] at hq
        exact hq
      have hJ := ih q hq' hne
      obtain ⟨c, hc⟩ := Option.isSome_iff_exists.mp
        (by rw [List.getLast?_isSome]; exact hne : (q.getLast?).isSome)
      show (p ++ sep :: joinSep sep (r :: rs)).getLast? = q.getLast?
      rw [List.getLast?_append, List.getLast?_cons, hJ, hc]
      rfl

theorem joinSep_getLast?_nil_last (sep : Char) :
    ∀ (ps : List (List Char)), ps.getLast? = some ([] : List Char) → 2 ≤ ps.length →
      (joinSep sep ps).getLast? = some sep := by
  intro ps
  induction ps with
  | nil =>
    intro hq
    simp at hq
  | cons p ps ih =>
    intro hq hlen
    cases ps with
    | nil => simp at hlen
    | cons r rs =>
      have hq' : (r :: rs).getLast? = some ([] : List Char) := by
        rw [List.getLast?_cons_cons] at hq
        exact hq
      show (p ++ sep :: joinSep sep (r :: rs)).getLast? = some sep
      have hJd : (joinSep sep (r :: rs)).getLast?.getD sep = sep := by
        cases rs with
        | nil =>
          simp only [List.getLast?_singleton, Option.some.injEq] at hq'
          subst hq'
          rfl
        | cons r2 rs2 =>
          have := ih hq' (by simp)
          rw [this]
          rfl
      rw [List.getLast?_append, List.getLast?_cons, hJd]
      rfl

theorem parse_octet_ok_shape (p : List Char) (v : Nat) (h : parse_octet p = Except.ok v) :
    p ≠ [] ∧ p.all Char.isDigit = true := by
  simp only [parse_octet] at h
  split_ifs at h with h1 h2 h3 h4 h5
  any_goals injection h
  exact ⟨h1, h2⟩

theorem parse_hextet_ok_shape (p : List Char) (v : Nat) (h : parse_hextet p = Except.ok v) :
    p ≠ [] ∧ p.all pyIsHexDigit = true := by
  simp only [parse_hextet] at h
  split_ifs at h with h1 h2 h3
  any_goals injection h
  exact ⟨h3, h1⟩

theorem IPv4_ok_first_last (l : List Char) (v : Nat) (h : IPv4Address.ctorList l = Except.ok v) :
    (∀ c, l.head? = some c → c.isDigit = true) ∧
    (∀ c, l.getLast? = some c → c.isDigit = true) := by
  simp only [IPv4Address.ctorList] at h
  split_ifs at h with h1 h2 h3
  cases hm : mapExcept parse_octet (splitOnChar '.' l) with
  | error e => rw [hm] at h; injection h
  | ok vs =>
    have hmem := mapExcept_ok_mem parse_octet _ vs hm
    have hjoin : joinSep '.' (splitOnChar '.' l) = l := joinSep_splitOnChar '.' l
    obtain ⟨o0, rest, ho⟩ : ∃ o0 rest, splitOnChar '.' l = o0 :: rest := by
      cases hsp : splitOnChar '.' l with
      | nil => exact absurd hsp (splitOnChar_ne_nil '.' l)
      | cons a b => exact ⟨a, b, rfl⟩
    constructor
    · intro c hc
      obtain ⟨w, hw⟩ := hmem o0 (by rw [ho]; exact List.mem_cons_self o0 rest)
      obtain ⟨hne, hdig⟩ := parse_octet_ok_shape o0 w hw
      have hh : l.head? = o0.head? := by
        conv_lhs => rw [← hjoin, ho]
        exact joinSep_head? '.' o0 rest hne
      rw [hh] at hc
      exact List.all_eq_true.mp hdig c (List.mem_of_mem_head? hc)
    · intro c hc
      obtain ⟨q, hq⟩ := Option.isSome_iff_exists.mp
        (by rw [List.getLast?_isSome, ho]; simp : ((splitOnChar '.' l).getLast?).isSome)
      obtain ⟨w, hw⟩ := hmem q (mem_of_getLast?_eq_some hq)
      obtain ⟨hne, hdig⟩ := parse_octet_ok_shape q w hw
      have hh : l.getLast? = q.getLast? := by
        conv_lhs => rw [← hjoin]
        exact joinSep_getLast? '.' _ q hq hne
      rw [hh] at hc
      exact List.all_eq_true.mp hdig c (mem_of_getLast?_eq_some hc)

theorem ctorCore_head_hextet (P : List (List Char)) (v : Nat) (p : List Char)
    (h : IPv6Address.ctorCore P = Except.ok v) (hp : P.head? = some p) (hpne : p ≠ []) :
    ∃ w, parse_hextet p = Except.ok w := by
  have hfe : ¬ (P.head? = some ([] : List Char)) := by
    rw [hp]
    simp [hpne]
  obtain ⟨P', hP⟩ : ∃ P', P = p :: P' := by
    cases P with
    | nil => simp at hp
    | cons a b =>
      simp only [List.head?_cons, Option.some.injEq] at hp
      exact ⟨b, by rw [hp]⟩
  simp only [IPv6Address.ctorCore, hfe, if_false, false_and] at h
  split at h
  · injection h
  split at h
  · injection h
  · -- the '::' case: the head is among the parts parsed before the gap
    rename_i skipm1 heq
    repeat' split at h
    all_goals try (injection h; done)
    all_goals
      rename_i his los heq1 heq2
      exact mapExcept_ok_mem parse_hextet _ his heq1 p
        (by rw [hP]; exact List.mem_cons_self p _)
  · -- no '::': every part is a parsed hextet
    repeat' split at h
    all_goals try (injection h; done)
    all_goals
      rename_i vs heq1
      exact mapExcept_ok_mem parse_hextet _ vs heq1 p
        (by rw [hP]; exact List.mem_cons_self p _)

theorem ctorCore_last_hextet (P : List (List Char)) (v : Nat) (q : List Char)
    (h : IPv6Address.ctorCore P = Except.ok v) (hq : P.getLast? = some q) (hqne : q ≠ []) :
    ∃ w, parse_hextet q = Except.ok w := by
  have hle : ¬ (P.getLast? = some ([] : List Char)) := by
    rw [hq]
    simp [hqne]
  simp only [IPv6Address.ctorCore, hle, if_false, false_and] at h
  split at h
  · injection h
  split at h
  · injection h
  · -- the '::' case: the last part is among the parts parsed after the gap
    rename_i skipm1 heq
    have hsk : skipm1 ∈ (List.range (P.length - 2)).filter
        (fun i => decide (P.get? (i + 1) = some ([] : List Char))) := by
      rw [heq]
      exact List.mem_singleton.mpr rfl
    have hlt : skipm1 < P.length - 2 := List.mem_range.mp (List.mem_filter.mp hsk).1
    repeat' split at h
    all_goals try (injection h; done)
    all_goals
      rename_i his los heq1 heq2
      refine mapExcept_ok_mem parse_hextet _ los heq2 q ?_
      apply mem_of_getLast?_eq_some
      rw [List.getLast?_drop]
      have hcond : ¬ (P.length ≤ P.length - (P.length - (skipm1 + 1) - 1)) := by omega
      rw [if_neg hcond]
      exact hq
  · -- no '::': every part is a parsed hextet
    repeat' split at h
    all_goals try (injection h; done)
    all_goals
      rename_i vs heq1
      exact mapExcept_ok_mem parse_hextet _ vs heq1 q (mem_of_getLast?_eq_some hq)

theorem IPv6_ok_first_last (l : List Char) (v : Nat) (h : IPv6Address.ctorList l = Except.ok v) :
    (∀ c, l.head? = some c → pyIsSpace c = false) ∧
    (∀ c, l.getLast? = some c → pyIsSpace c = false) := by
  have hjoin : joinSep ':' (splitOnChar ':' l) = l := joinSep_splitOnChar ':' l
  simp only [IPv6Address.ctorList] at h
  split_ifs at h with h1 h2 h3 hdot
  · -- IPv4-style suffix in the last part
    split at h
    · injection h
    rename_i ipv4 hv4
    obtain ⟨p0, p1, rest, hparts⟩ : ∃ p0 p1 rest, splitOnChar ':' l = p0 :: p1 :: rest := by
      cases hsp : splitOnChar ':' l with
      | nil => rw [hsp] at h3; simp at h3
      | cons a t =>
        cases t with
        | nil => rw [hsp] at h3; simp at h3
        | cons b t2 => exact ⟨a, b, t2, rfl⟩
    obtain ⟨q, hq⟩ : ∃ q, (splitOnChar ':' l).getLast? = some q := by
      rw [hparts]
      exact Option.isSome_iff_exists.mp (by rw [List.getLast?_isSome]; simp)
    have hqD : (splitOnChar ':' l).getLastD [] = q := by
      rw [List.getLastD_eq_getLast?, hq]
      rfl
    rw [hqD] at hv4
    have hqne : q ≠ [] := by
      intro hn
      rw [hn] at hv4
      simp [IPv4Address.ctorList] at hv4
    constructor
    · intro c hc
      by_cases hp0 : p0 = ([] : List Char)
      · have hcol : l.head? = some ':' := by
          conv_lhs => rw [← hjoin, hparts, hp0]
          rfl
        rw [hcol] at hc
        have : (':' : Char) = c := Option.some.inj hc
        rw [← this]
        decide
      · have hh : l.head? = p0.head? := by
          conv_lhs => rw [← hjoin, hparts]
          exact joinSep_head? ':' p0 (p1 :: rest) hp0
        rw [hh] at hc
        have hhead' : ((splitOnChar ':' l).dropLast
            ++ [Nat.toDigits 16 (ipv4 / 65536), Nat.toDigits 16 (ipv4 % 65536)]).head?
              = some p0 := by
          rw [hparts]
          rfl
        obtain ⟨w, hw⟩ := ctorCore_head_hextet _ v p0 h hhead' hp0
        obtain ⟨_, hhex⟩ := parse_hextet_ok_shape p0 w hw
        exact pyIsHexDigit_not_space c (List.all_eq_true.mp hhex c (List.mem_of_mem_head? hc))
    · intro c hc
      have hh : l.getLast? = q.getLast? := by
        conv_lhs => rw [← hjoin]
        exact joinSep_getLast? ':' _ q hq hqne
      rw [hh] at hc
      exact isDigit_not_space c ((IPv4_ok_first_last q ipv4 hv4).2 c hc)
  · -- no IPv4-style suffix: parts are hextets or '::' gaps
    obtain ⟨p0, p1, rest, hparts⟩ : ∃ p0 p1 rest, splitOnChar ':' l = p0 :: p1 :: rest := by
      cases hsp : splitOnChar ':' l with
      | nil => rw [hsp] at h3; simp at h3
      | cons a t =>
        cases t with
        | nil => rw [hsp] at h3; simp at h3
        | cons b t2 => exact ⟨a, b, t2, rfl⟩
    obtain ⟨q, hq⟩ : ∃ q, (splitOnChar ':' l).getLast? = some q := by
      rw [hparts]
      exact Option.isSome_iff_exists.mp (by rw [List.getLast?_isSome]; simp)
    constructor
    · intro c hc
      by_cases hp0 : p0 = ([] : List Char)
      · have hcol : l.head? = some ':' := by
          conv_lhs => rw [← hjoin, hparts, hp0]
          rfl
        rw [hcol] at hc
        have : (':' : Char) = c := Option.some.inj hc
        rw [← this]
        decide
      · have hh : l.head? = p0.head? := by
          conv_lhs => rw [← hjoin, hparts]
          exact joinSep_head? ':' p0 (p1 :: rest) hp0
        rw [hh] at hc
        obtain ⟨w, hw⟩ := ctorCore_head_hextet _ v p0 h (by rw [hparts]; rfl) hp0
        obtain ⟨_, hhex⟩ := parse_hextet_ok_shape p0 w hw
        exact pyIsHexDigit_not_space c (List.all_eq_true.mp hhex c (List.mem_of_mem_head? hc))
    · intro c hc
      by_cases hqe : q = ([] : List Char)
      · have hcol : l.getLast? = some ':' := by
          conv_lhs => rw [← hjoin]
          exact joinSep_getLast?_nil_last ':' _ (by rw [hq, hqe]) (by rw [hparts]; simp)
        rw [hcol] at hc
        have : (':' : Char) = c := Option.some.inj hc
        rw [← this]
        decide
      · have hh : l.getLast? = q.getLast? := by
          conv_lhs => rw [← hjoin]
          exact joinSep_getLast? ':' _ q hq hqe
        rw [hh] at hc
        obtain ⟨w, hw⟩ := ctorCore_last_hextet _ v q h hq hqe
        obtain ⟨_, hhex⟩ := parse_hextet_ok_shape q w hw
        exact pyIsHexDigit_not_space c (List.all_eq_true.mp hhex c (mem_of_getLast?_eq_some hc))

/-- A string accepted by `ip_address` carries no surrounding whitespace, so
Python's `.strip()` leaves it unchanged. -/
theorem ip_address_ok_strip (s : String) (a : IpAddrKind) (h : ip_address s = Except.ok a) :
    pyStrip s = s := by
  unfold ip_address at h
  cases h4 : IPv4Address.ctor s with
  | ok w =>
    have hfl := IPv4_ok_first_last s.toList w h4
    exact pyStrip_eq_self s (fun c hc => isDigit_not_space c (hfl.1 c hc))
      (fun c hc => isDigit_not_space c (hfl.2 c hc))
  | error e4 =>
    rw [h4] at h
    cases h6 : IPv6Address.ctor s with
    | ok w =>
      have hfl := IPv6_ok_first_last s.toList w h6
      exact pyStrip_eq_self s hfl.1 hfl.2
    | error e6 =>
      rw [h6] at h
      injection h

/-- C5: request-level ip validation.  A missing value and a
whitespace-only value normalize to `None` (caller-address lookup) without
error; a value accepted by `ipaddress.ip_address` is returned unchanged; a
value whose trimmed form is non-empty but rejected by `ip_address` raises a
`ValueError`, which surfaces as a validation failure whose outward payload
(for an error located at the `ip` field) carries code `invalid_ip`. -/
theorem C5_request_ip_validation (v : Option String) :
    (v = none → validate_ip v = Except.ok none) ∧
    (∀ s, v = some s → pyStrip s = "" → validate_ip v = Except.ok none) ∧
    (∀ s, v = some s → (∃ a, ip_address s = Except.ok a) →
      validate_ip v = Except.ok (some s)) ∧
    (∀ s, v = some s → pyStrip s ≠ "" → (∀ a, ip_address (pyStrip s) ≠ Except.ok a) →
      ∃ m, validate_ip v = Except.error (PyExc.valueError m)) ∧
    build_validation_error_payload [["query", "ip"]]
      = ("invalid_ip", "The supplied IP address is not a valid IPv4 or IPv6 address.") := by
  refine ⟨?_, ?_, ?_, ?_, rfl⟩
  · rintro rfl
    rfl
  · rintro s rfl hs
    simp only [validate_ip]
    rw [if_pos hs]
  · rintro s rfl ⟨a, ha⟩
    have hstrip : pyStrip s = s := ip_address_ok_strip s a ha
    have hne : s ≠ "" := by
      intro hempty
      rw [hempty] at ha
      have hev : ip_address "" = Except.error (PyExc.valueError
          (pyReprStr "" ++ " does not appear to be an IPv4 or IPv6 address")) := rfl
      rw [hev] at ha
      injection ha
    simp only [validate_ip, hstrip]
    rw [if_neg hne, ha]
  · rintro s rfl hne hinv
    simp only [validate_ip]
    rw [if_neg hne]
    cases hip : ip_address (pyStrip s) with
    | ok a => exact absurd hip (hinv a)
    | error e =>
      cases e with
      | valueError m => exact ⟨m, rfl⟩
      | addressValueError m => exact ⟨_, rfl⟩

/-- Witness for C5: the literal "8.8.8.8" is accepted unchanged, a
whitespace-only value normalizes to `None`, and "999.999.999.999" is
rejected with a `ValueError`. -/
theorem C5_request_ip_validation_witness :
    validate_ip (some "8.8.8.8") = Except.ok (some "8.8.8.8") ∧
    validate_ip (some "   ") = Except.ok none ∧
    (∃ m, validate_ip (some "999.999.999.999") = Except.error (PyExc.valueError m)) := by
  refine ⟨?_, ?_, ?_⟩
  · exact (C5_request_ip_validation (some "8.8.8.8")).2.2.1 "8.8.8.8" rfl
      ⟨IpAddrKind.v4 134744072, rfl⟩
  · exact (C5_request_ip_validation (some "   ")).2.1 "   " rfl rfl
  · refine (C5_request_ip_validation (some "999.999.999.999")).2.2.2.1 "999.999.999.999" rfl
      (by decide) ?_
    intro a hc
    have hev : ip_address (pyStrip "999.999.999.999") = Except.error (PyExc.valueError
        (pyReprStr "999.999.999.999" ++ " does not appear to be an IPv4 or IPv6 address")) := rfl
    rw [hev] at hc
    injection hc
